import Mathlib

/-
  Shallow embedding of src/apiserver/plane/space/views/issue.py: the public
  comment / reaction / vote viewsets, the public issue retrieve endpoint and
  the public project issue listing endpoint.  Database tables are lists of
  records; each handler is a pure function from a database state and request
  parameters to a response, a new database state and an ordered list of side
  effects (activity-event emissions and row writes, in execution order).
-/

/-- A ProjectDeployBoard row (plane.db.models.ProjectDeployBoard): one per
(workspace slug, project) pair, with the three capability flags consulted by
the viewsets. -/
structure DeployBoard where
  workspaceSlug : String
  projectId : Nat
  comments : Bool
  reactions : Bool
  votes : Bool
deriving DecidableEq

/-- An Issue row, with only the fields this file reads. -/
structure Issue where
  id : Nat
  workspaceSlug : String
  projectId : Nat
  isDraft : Bool
deriving DecidableEq

/-- An IssueComment row. -/
structure IssueComment where
  id : Nat
  workspaceSlug : String
  projectId : Nat
  issueId : Nat
  actorId : Nat
  access : String
  commentHtml : String
  createdAt : Nat
deriving DecidableEq

/-- An IssueReaction row. -/
structure IssueReaction where
  id : Nat
  workspaceSlug : String
  projectId : Nat
  issueId : Nat
  actorId : Nat
  reaction : String
  createdAt : Nat
deriving DecidableEq

/-- A CommentReaction row. -/
structure CommentReaction where
  id : Nat
  workspaceSlug : String
  projectId : Nat
  commentId : Nat
  actorId : Nat
  reaction : String
  createdAt : Nat
deriving DecidableEq

/-- An IssueVote row; the vote value is a small signed integer. -/
structure IssueVote where
  id : Nat
  workspaceSlug : String
  projectId : Nat
  issueId : Nat
  actorId : Nat
  vote : Int
deriving DecidableEq

/-- A formal ProjectMember row. -/
structure ProjectMember where
  workspaceSlug : String
  projectId : Nat
  memberId : Nat
  isActive : Bool
deriving DecidableEq

/-- A ProjectPublicMember row: the lightweight tracking record created by the
mutating handlers for identities that are not active formal members. -/
structure ProjectPublicMember where
  id : Nat
  projectId : Nat
  memberId : Nat
deriving DecidableEq

/-- The database state all handlers operate on.  The field nextId supplies
fresh primary keys for newly created rows. -/
structure DB where
  deployBoards : List DeployBoard
  issues : List Issue
  comments : List IssueComment
  issueReactions : List IssueReaction
  commentReactions : List CommentReaction
  votes : List IssueVote
  projectMembers : List ProjectMember
  publicMembers : List ProjectPublicMember
  nextId : Nat
deriving DecidableEq

/-- Modelled from the spec: serialization-to-JSON field mapping is out of
scope of the shown file (the serializers live in plane.app.serializers); we
model a serialized payload as a flat association list of string keys and
stringified values. -/
abbrev Json := List (String × String)

/-- The transient activity-event message handed to issue_activity.delay. -/
structure ActivityEvent where
  type : String
  requestedData : Option Json
  actorId : String
  issueId : Option String
  projectId : String
  currentInstance : Option Json
  epoch : Nat
deriving DecidableEq

/-- One observable side effect of a handler, recorded in execution order. -/
inductive Effect where
  | emit (ev : ActivityEvent)
  | createRow (table : String) (id : Nat)
  | updateRow (table : String) (id : Nat)
  | deleteRow (table : String) (id : Nat)
deriving DecidableEq

/-- An HTTP-level response, tagged by the DRF status used in the source. -/
inductive Resp where
  | created (body : Json)
  | okBody (body : Json)
  | noContent
  | badRequest (body : Json)
  | notFound (body : Json)
deriving DecidableEq

/-- Numeric status code of a response. -/
def Resp.code : Resp → Nat
  | .created _ => 201
  | .okBody _ => 200
  | .noContent => 204
  | .badRequest _ => 400
  | .notFound _ => 404

/-- Result of one mutating handler: the response, the database after the
handler ran, and the ordered side effects. -/
structure HandlerOutput where
  resp : Resp
  db : DB
  effects : List Effect
deriving DecidableEq

/-- Modelled from the spec: IssueCommentSerializer schema validation lives in
plane.app.serializers (not in the shown file); validity is abstracted as a
boolean verdict carried with the payload. -/
structure CommentPayload where
  commentHtml : Option String
  valid : Bool
deriving DecidableEq

/-- Modelled from the spec: reaction serializer validation abstracted as a
boolean verdict; the reaction code is the payload content. -/
structure ReactionPayload where
  reaction : String
  valid : Bool
deriving DecidableEq

/-- A vote create payload: request.data.get of the vote key, absent when the
request body carries no vote field. -/
structure VotePayload where
  vote : Option Int
deriving DecidableEq

/-- Modelled from the spec: the comment serializer maps model fields to JSON,
including the row id. -/
def serializeComment (c : IssueComment) : Json :=
  [("id", toString c.id), ("comment_html", c.commentHtml), ("access", c.access),
   ("actor", toString c.actorId), ("issue", toString c.issueId),
   ("project", toString c.projectId)]

/-- Modelled from the spec: the issue reaction serializer output. -/
def serializeReaction (r : IssueReaction) : Json :=
  [("id", toString r.id), ("reaction", r.reaction), ("actor", toString r.actorId),
   ("issue", toString r.issueId)]

/-- Modelled from the spec: the comment reaction serializer output. -/
def serializeCommentReaction (r : CommentReaction) : Json :=
  [("id", toString r.id), ("reaction", r.reaction), ("actor", toString r.actorId),
   ("comment", toString r.commentId)]

/-- Modelled from the spec: the vote serializer output. -/
def serializeVote (v : IssueVote) : Json :=
  [("id", toString v.id), ("vote", toString v.vote), ("actor", toString v.actorId),
   ("issue", toString v.issueId), ("project", toString v.projectId)]

/-- Modelled from the spec: the public issue serializer output, with the row
id. -/
def serializeIssue (i : Issue) : Json :=
  [("id", toString i.id), ("project", toString i.projectId)]

/-- The raw request body of a comment create or update request, as dumped by
json.dumps of request.data. -/
def commentReqJson (p : CommentPayload) : Json :=
  match p.commentHtml with
  | some h => [("comment_html", h)]
  | none => []

/-- The raw request body of a reaction create request. -/
def reactionReqJson (p : ReactionPayload) : Json :=
  [("reaction", p.reaction)]

/-- The raw request body of a vote create request. -/
def voteReqJson (p : VotePayload) : Json :=
  match p.vote with
  | some v => [("vote", toString v)]
  | none => []

/-- ProjectDeployBoard.objects.get filtered by workspace slug and project id
(issue.py lines 83-86 and the analogous lookups in every handler). -/
def findBoard (db : DB) (slug : String) (projectId : Nat) : Option DeployBoard :=
  db.deployBoards.find? (fun b => b.workspaceSlug == slug && b.projectId == projectId)

/-- The exists check on active formal membership used before public-member
registration (issue.py lines 143-147, 262-266, 362-366, 451-455). -/
def isActiveMember (db : DB) (projectId actorId : Nat) : Bool :=
  db.projectMembers.any
    (fun m => m.projectId == projectId && m.memberId == actorId && m.isActive)

/-- The guarded ProjectPublicMember.objects.get_or_create call shared by all
create handlers (issue.py lines 143-152 and analogues): when the actor is not
an active formal member, create the (project, member) tracking row unless it
already exists. -/
def ensurePublicMember (db : DB) (projectId actorId : Nat) : DB × List Effect :=
  if isActiveMember db projectId actorId then (db, [])
  else
    match db.publicMembers.find?
        (fun m => m.projectId == projectId && m.memberId == actorId) with
    | some _ => (db, [])
    | none =>
        ({ db with
            publicMembers := db.publicMembers ++ [⟨db.nextId, projectId, actorId⟩],
            nextId := db.nextId + 1 },
         [.createRow "ProjectPublicMember" db.nextId])

/-- Insertion into a list sorted by the boolean relation le. -/
def insertSorted {α : Type} (le : α → α → Bool) (a : α) : List α → List α
  | [] => [a]
  | b :: t => if le a b then a :: b :: t else b :: insertSorted le a t

/-- Sorting by the boolean relation le, modelling an order_by clause. -/
def sortByRel {α : Type} (le : α → α → Bool) (l : List α) : List α :=
  l.foldr (insertSorted le) []

/-- Modelled from the spec: the base exception handler (plane space base
views, not in the shown file) maps an ObjectDoesNotExist raised by a bare
objects.get to a 404 response naming the model. -/
def doesNotExist (model : String) : Resp :=
  .notFound [("error", model ++ " does not exist")]

namespace IssueCommentPublicViewSet

/-- get_queryset (issue.py lines 81-111): board lookup, comments flag, then
the comment rows filtered by workspace slug, issue and EXTERNAL access,
annotated with whether the requesting user is an active project member, and
ordered ascending by creation time.  The query-parameter filtering applied by
filter_queryset (base class, not in the shown file) is modelled from the spec
as the identity for a request with no extra query parameters. -/
def get_queryset (db : DB) (slug : String) (projectId issueId actorId : Nat) :
    List (IssueComment × Bool) :=
  match findBoard db slug projectId with
  | some board =>
      if board.comments then
        sortByRel (fun a b => a.1.createdAt ≤ b.1.createdAt)
          ((db.comments.filter
              (fun c => c.workspaceSlug == slug && c.issueId == issueId &&
                c.access == "EXTERNAL")).map
            (fun c =>
              (c, db.projectMembers.any
                (fun m => m.workspaceSlug == slug && m.projectId == projectId &&
                  m.memberId == actorId && m.isActive))))
      else []
  | none => []

/-- create (issue.py lines 113-155): board lookup (missing board raises, the
base handler maps it to 404), comments flag check, serializer validation,
save with EXTERNAL access, activity event with the serialized new comment as
requested_data and null current_instance, then public-member registration. -/
def create (db : DB) (slug : String) (projectId issueId actorId : Nat)
    (p : CommentPayload) (now : Nat) : HandlerOutput :=
  match findBoard db slug projectId with
  | none => ⟨doesNotExist "ProjectDeployBoard", db, []⟩
  | some board =>
      if !board.comments then
        ⟨.badRequest [("error", "Comments are not enabled for this project")], db, []⟩
      else if !p.valid then
        ⟨.badRequest [("error", "invalid payload")], db, []⟩
      else
        let c : IssueComment :=
          ⟨db.nextId, slug, projectId, issueId, actorId, "EXTERNAL",
            p.commentHtml.getD "", now⟩
        let db1 := { db with comments := db.comments ++ [c], nextId := db.nextId + 1 }
        let ev : ActivityEvent :=
          ⟨"comment.activity.created", some (serializeComment c), toString actorId,
            some (toString issueId), toString projectId, none, now⟩
        let reg := ensurePublicMember db1 projectId actorId
        ⟨.created (serializeComment c), reg.1,
          [.createRow "IssueComment" c.id, .emit ev] ++ reg.2⟩

/-- The update handler (source method name: the DRF method for PATCH,
issue.py lines 157-188): board lookup, flag check, comment lookup filtered by
slug, pk and actor, a merge save of the supplied fields, then the activity
event.  The event
serializes the very instance the save just mutated, so current_instance holds
the post-update state. -/
def patch (db : DB) (slug : String) (projectId issueId actorId pk : Nat)
    (p : CommentPayload) (now : Nat) : HandlerOutput :=
  match findBoard db slug projectId with
  | none => ⟨doesNotExist "ProjectDeployBoard", db, []⟩
  | some board =>
      if !board.comments then
        ⟨.badRequest [("error", "Comments are not enabled for this project")], db, []⟩
      else
        match db.comments.find?
            (fun c => c.workspaceSlug == slug && c.id == pk && c.actorId == actorId) with
        | none => ⟨doesNotExist "IssueComment", db, []⟩
        | some c =>
            if !p.valid then ⟨.badRequest [("error", "invalid payload")], db, []⟩
            else
              let merged : IssueComment :=
                { c with commentHtml := p.commentHtml.getD c.commentHtml }
              let db1 :=
                { db with comments :=
                    db.comments.map (fun w => if w.id == c.id then merged else w) }
              let ev : ActivityEvent :=
                ⟨"comment.activity.updated", some (commentReqJson p), toString actorId,
                  some (toString issueId), toString projectId,
                  some (serializeComment merged), now⟩
              ⟨.okBody (serializeComment merged), db1,
                [.updateRow "IssueComment" c.id, .emit ev]⟩

/-- destroy (issue.py lines 190-219): board lookup, flag check, comment
lookup filtered by slug, pk, project and actor, activity event with the
serialized comment as current_instance, then the hard delete and 204. -/
def destroy (db : DB) (slug : String) (projectId issueId actorId pk : Nat)
    (now : Nat) : HandlerOutput :=
  match findBoard db slug projectId with
  | none => ⟨doesNotExist "ProjectDeployBoard", db, []⟩
  | some board =>
      if !board.comments then
        ⟨.badRequest [("error", "Comments are not enabled for this project")], db, []⟩
      else
        match db.comments.find?
            (fun c => c.workspaceSlug == slug && c.id == pk &&
              c.projectId == projectId && c.actorId == actorId) with
        | none => ⟨doesNotExist "IssueComment", db, []⟩
        | some c =>
            let ev : ActivityEvent :=
              ⟨"comment.activity.deleted", some [("comment_id", toString pk)],
                toString actorId, some (toString issueId), toString projectId,
                some (serializeComment c), now⟩
            let db1 :=
              { db with comments := db.comments.filter (fun w => !(w.id == c.id)) }
            ⟨.noContent, db1, [.emit ev, .deleteRow "IssueComment" c.id]⟩

end IssueCommentPublicViewSet

namespace IssueReactionPublicViewSet

/-- get_queryset (issue.py lines 226-244): board lookup, reactions flag, then
the reaction rows filtered by workspace slug, project and issue, ordered
descending by creation time. -/
def get_queryset (db : DB) (slug : String) (projectId issueId : Nat) :
    List IssueReaction :=
  match findBoard db slug projectId with
  | some board =>
      if board.reactions then
        sortByRel (fun a b => b.createdAt ≤ a.createdAt)
          (db.issueReactions.filter
            (fun r => r.workspaceSlug == slug && r.projectId == projectId &&
              r.issueId == issueId))
      else []
  | none => []

/-- create (issue.py lines 246-284): board lookup, reactions flag check,
serializer validation, save, public-member registration, then the activity
event with null current_instance. -/
def create (db : DB) (slug : String) (projectId issueId actorId : Nat)
    (p : ReactionPayload) (now : Nat) : HandlerOutput :=
  match findBoard db slug projectId with
  | none => ⟨doesNotExist "ProjectDeployBoard", db, []⟩
  | some board =>
      if !board.reactions then
        ⟨.badRequest [("error", "Reactions are not enabled for this project board")],
          db, []⟩
      else if !p.valid then
        ⟨.badRequest [("error", "invalid payload")], db, []⟩
      else
        let r : IssueReaction :=
          ⟨db.nextId, slug, projectId, issueId, actorId, p.reaction, now⟩
        let db1 :=
          { db with
            issueReactions := db.issueReactions ++ [r]
            nextId := db.nextId + 1 }
        let reg := ensurePublicMember db1 projectId actorId
        let ev : ActivityEvent :=
          ⟨"issue_reaction.activity.created", some (reactionReqJson p),
            toString actorId, some (toString issueId), toString projectId, none, now⟩
        ⟨.created (serializeReaction r), reg.1,
          [.createRow "IssueReaction" r.id] ++ reg.2 ++ [.emit ev]⟩

/-- destroy (issue.py lines 286-317): board lookup, reactions flag check,
reaction lookup by the natural key (slug, issue, reaction code) filtered to
the requesting actor, activity event carrying the reaction code and the row
id, then the hard delete and 204. -/
def destroy (db : DB) (slug : String) (projectId issueId actorId : Nat)
    (reactionCode : String) (now : Nat) : HandlerOutput :=
  match findBoard db slug projectId with
  | none => ⟨doesNotExist "ProjectDeployBoard", db, []⟩
  | some board =>
      if !board.reactions then
        ⟨.badRequest [("error", "Reactions are not enabled for this project board")],
          db, []⟩
      else
        match db.issueReactions.find?
            (fun r => r.workspaceSlug == slug && r.issueId == issueId &&
              r.reaction == reactionCode && r.actorId == actorId) with
        | none => ⟨doesNotExist "IssueReaction", db, []⟩
        | some r =>
            let ev : ActivityEvent :=
              ⟨"issue_reaction.activity.deleted", none, toString actorId,
                some (toString issueId), toString projectId,
                some [("reaction", reactionCode), ("identifier", toString r.id)], now⟩
            let db1 :=
              { db with issueReactions :=
                  db.issueReactions.filter (fun w => !(w.id == r.id)) }
            ⟨.noContent, db1, [.emit ev, .deleteRow "IssueReaction" r.id]⟩

end IssueReactionPublicViewSet

namespace CommentReactionPublicViewSet

/-- get_queryset (issue.py lines 324-342): board lookup, reactions flag, then
the comment reaction rows filtered by workspace slug, project and comment,
ordered descending by creation time. -/
def get_queryset (db : DB) (slug : String) (projectId commentId : Nat) :
    List CommentReaction :=
  match findBoard db slug projectId with
  | some board =>
      if board.reactions then
        sortByRel (fun a b => b.createdAt ≤ a.createdAt)
          (db.commentReactions.filter
            (fun r => r.workspaceSlug == slug && r.projectId == projectId &&
              r.commentId == commentId))
      else []
  | none => []

/-- create (issue.py lines 344-384): board lookup, reactions flag check,
serializer validation, save, public-member registration, then the activity
event with null issue id and null current_instance. -/
def create (db : DB) (slug : String) (projectId commentId actorId : Nat)
    (p : ReactionPayload) (now : Nat) : HandlerOutput :=
  match findBoard db slug projectId with
  | none => ⟨doesNotExist "ProjectDeployBoard", db, []⟩
  | some board =>
      if !board.reactions then
        ⟨.badRequest [("error", "Reactions are not enabled for this board")], db, []⟩
      else if !p.valid then
        ⟨.badRequest [("error", "invalid payload")], db, []⟩
      else
        let r : CommentReaction :=
          ⟨db.nextId, slug, projectId, commentId, actorId, p.reaction, now⟩
        let db1 :=
          { db with
            commentReactions := db.commentReactions ++ [r]
            nextId := db.nextId + 1 }
        let reg := ensurePublicMember db1 projectId actorId
        let ev : ActivityEvent :=
          ⟨"comment_reaction.activity.created", some (reactionReqJson p),
            toString actorId, none, toString projectId, none, now⟩
        ⟨.created (serializeCommentReaction r), reg.1,
          [.createRow "CommentReaction" r.id] ++ reg.2 ++ [.emit ev]⟩

/-- destroy (issue.py lines 386-419): board lookup, reactions flag check,
comment reaction lookup by (project, slug, comment, reaction code) filtered
to the requesting actor, activity event carrying the reaction code, the row
id and the comment id, then the hard delete and 204. -/
def destroy (db : DB) (slug : String) (projectId commentId actorId : Nat)
    (reactionCode : String) (now : Nat) : HandlerOutput :=
  match findBoard db slug projectId with
  | none => ⟨doesNotExist "ProjectDeployBoard", db, []⟩
  | some board =>
      if !board.reactions then
        ⟨.badRequest [("error", "Reactions are not enabled for this board")], db, []⟩
      else
        match db.commentReactions.find?
            (fun r => r.projectId == projectId && r.workspaceSlug == slug &&
              r.commentId == commentId && r.reaction == reactionCode &&
              r.actorId == actorId) with
        | none => ⟨doesNotExist "CommentReaction", db, []⟩
        | some r =>
            let ev : ActivityEvent :=
              ⟨"comment_reaction.activity.deleted", none, toString actorId,
                none, toString projectId,
                some [("reaction", reactionCode), ("identifier", toString r.id),
                  ("comment_id", toString commentId)], now⟩
            let db1 :=
              { db with commentReactions :=
                  db.commentReactions.filter (fun w => !(w.id == r.id)) }
            ⟨.noContent, db1, [.emit ev, .deleteRow "CommentReaction" r.id]⟩

end CommentReactionPublicViewSet

/-- The filter used by the vote get_or_create lookup (issue.py lines
445-449): actor, project and issue. -/
def voteKey (projectId issueId actorId : Nat) : IssueVote → Bool :=
  fun v => v.actorId == actorId && v.projectId == projectId && v.issueId == issueId

namespace IssueVotePublicViewSet

/-- get_queryset (issue.py lines 426-442): board lookup, votes flag, then the
vote rows filtered by issue, workspace slug and project, with no ordering
clause. -/
def get_queryset (db : DB) (slug : String) (projectId issueId : Nat) :
    List IssueVote :=
  match findBoard db slug projectId with
  | some board =>
      if board.votes then
        db.votes.filter
          (fun v => v.issueId == issueId && v.workspaceSlug == slug &&
            v.projectId == projectId)
      else []
  | none => []

/-- create (issue.py lines 444-474): note that no deploy board lookup occurs.
IssueVote.objects.get_or_create keyed on (actor, project, issue), then the
public-member registration, then the vote value is overwritten with the
request value (default 1) and saved, then the activity event, then 201 with
the serialized vote.  A row created by get_or_create receives the model
default vote value and is immediately overwritten before the save.  The
workspace of a created row is assigned from the project by the persistence
layer (not in the shown file); the path slug names the workspace of the
project. -/
def create (db : DB) (slug : String) (projectId issueId actorId : Nat)
    (p : VotePayload) (now : Nat) : HandlerOutput :=
  match db.votes.find? (voteKey projectId issueId actorId) with
  | some v =>
      let reg := ensurePublicMember db projectId actorId
      let v2 : IssueVote := { v with vote := p.vote.getD 1 }
      let db2 :=
        { reg.1 with votes := reg.1.votes.map (fun w => if w.id == v.id then v2 else w) }
      let ev : ActivityEvent :=
        ⟨"issue_vote.activity.created", some (voteReqJson p), toString actorId,
          some (toString issueId), toString projectId, none, now⟩
      ⟨.created (serializeVote v2), db2, reg.2 ++ [.updateRow "IssueVote" v.id, .emit ev]⟩
  | none =>
      let v : IssueVote := ⟨db.nextId, slug, projectId, issueId, actorId, 1⟩
      let db1 := { db with votes := db.votes ++ [v], nextId := db.nextId + 1 }
      let reg := ensurePublicMember db1 projectId actorId
      let v2 : IssueVote := { v with vote := p.vote.getD 1 }
      let db2 :=
        { reg.1 with votes := reg.1.votes.map (fun w => if w.id == v.id then v2 else w) }
      let ev : ActivityEvent :=
        ⟨"issue_vote.activity.created", some (voteReqJson p), toString actorId,
          some (toString issueId), toString projectId, none, now⟩
      ⟨.created (serializeVote v2), db2,
        [.createRow "IssueVote" v.id] ++ reg.2 ++ [.updateRow "IssueVote" v.id, .emit ev]⟩

/-- destroy (issue.py lines 476-498): note that no deploy board lookup
occurs.  Vote lookup by (slug, project, issue) filtered to the requesting
actor, activity event carrying the vote value and the row id, then the hard
delete and 204. -/
def destroy (db : DB) (slug : String) (projectId issueId actorId : Nat)
    (now : Nat) : HandlerOutput :=
  match db.votes.find?
      (fun v => v.workspaceSlug == slug && v.projectId == projectId &&
        v.issueId == issueId && v.actorId == actorId) with
  | none => ⟨doesNotExist "IssueVote", db, []⟩
  | some v =>
      let ev : ActivityEvent :=
        ⟨"issue_vote.activity.deleted", none, toString actorId,
          some (toString issueId), toString projectId,
          some [("vote", toString v.vote), ("identifier", toString v.id)], now⟩
      let db1 := { db with votes := db.votes.filter (fun w => !(w.id == v.id)) }
      ⟨.noContent, db1, [.emit ev, .deleteRow "IssueVote" v.id]⟩

end IssueVotePublicViewSet

namespace IssueRetrievePublicEndpoint

/-- get (issue.py lines 501-511): note that no deploy board lookup occurs.
Issue lookup by (slug, project, pk), then 200 with the serialized issue. -/
def get (db : DB) (slug : String) (projectId issueId : Nat) : HandlerOutput :=
  match db.issues.find?
      (fun i => i.workspaceSlug == slug && i.projectId == projectId &&
        i.id == issueId) with
  | none => ⟨doesNotExist "Issue", db, []⟩
  | some i => ⟨.okBody (serializeIssue i), db, []⟩

end IssueRetrievePublicEndpoint

/-- A symbolic description of an issue queryset: the three base filters, the
extra AND-combined parsed filters, the annotated aggregate fields and the
ordering, mirroring the queryset combinators applied in the listing
endpoint. -/
structure IssueQuery where
  filterProjectId : Option Nat
  filterSlug : Option String
  filterIsDraft : Option Bool
  extraFilters : List (String × String)
  aggFields : List String
  orderBy : Option String
deriving DecidableEq

/-- The queryset built at issue.py lines 532-561: base predicate project,
workspace slug and is_draft true, with the annotated cycle id and the three
correlated Count aggregates link_count, attachment_count and
sub_issues_count. -/
def builtIssueQueryset (projectId : Nat) (slug : String) : IssueQuery :=
  { filterProjectId := some projectId
    filterSlug := some slug
    filterIsDraft := some true
    extraFilters := []
    aggFields := ["cycle_id", "link_count", "attachment_count", "sub_issues_count"]
    orderBy := none }

/-- The filter combinator of line 565: AND the parsed filters onto a
queryset. -/
def applyExtraFilters (q : IssueQuery) (fs : List (String × String)) : IssueQuery :=
  { q with extraFilters := q.extraFilters ++ fs }

/-- Modelled from the spec: order_issue_queryset (plane.utils.order_queryset,
not in the shown file) applies the requested ordering to the queryset; the
allow-list fallback to the default ordering is elided because no claim
concerns it. -/
def order_issue_queryset (q : IssueQuery) (orderByParam : String) : IssueQuery :=
  { q with orderBy := some orderByParam }

/-- Result of the listing endpoint: the HTTP status, the error body when the
project is unpublished, and the queryset handed to pagination (the paginator
itself is base-class code outside the shown file). -/
structure ListingOutput where
  status : Nat
  errorBody : Option Json
  query : Option IssueQuery
deriving DecidableEq

namespace ProjectIssuesPublicEndpoint

/-- get (issue.py lines 519-606): 404 when no deploy board exists, otherwise
the handler builds the annotated queryset of lines 532-561, but line 565
rebinds the variable to a fresh base queryset with the parsed filters, so the
built queryset is discarded; the ordering is then applied and the result is
handed to pagination.  The parameter baseQ stands for the value of the
self.get_queryset call on line 565: that method lives in the base view class
(not in the shown file) and is independent of the local built queryset.
Filter parsing (plane.utils.issue_filters) is likewise outside the shown
file, so the parsed filters arrive as the parameter parsedFilters. -/
def get (db : DB) (slug : String) (projectId : Nat) (baseQ : IssueQuery)
    (parsedFilters : List (String × String)) (orderByParam : String) : ListingOutput :=
  if db.deployBoards.any (fun b => b.workspaceSlug == slug && b.projectId == projectId) then
    let _issue_queryset := builtIssueQueryset projectId slug
    let q := order_issue_queryset (applyExtraFilters baseQ parsedFilters) orderByParam
    { status := 200, errorBody := none, query := some q }
  else
    { status := 404, errorBody := some [("error", "Project is not published")],
      query := none }

end ProjectIssuesPublicEndpoint

/-- The events emitted in an effect trace, in order. -/
def emittedEvents (effs : List Effect) : List ActivityEvent :=
  effs.filterMap (fun e => match e with | .emit ev => some ev | _ => none)

/-- Count of ProjectPublicMember rows for a (project, member) pair. -/
def ppmCount (db : DB) (projectId actorId : Nat) : Nat :=
  db.publicMembers.countP
    (fun m => m.projectId == projectId && m.memberId == actorId)

/-- Injectivity of row ids within one table. -/
def idUnique {α : Type} (getId : α → Nat) (l : List α) : Prop :=
  ∀ a ∈ l, ∀ b ∈ l, getId a = getId b → a = b

lemma find?_eq_none_of_countP_zero {α : Type} {p : α → Bool} {l : List α}
    (h : l.countP p = 0) : l.find? p = none :=
  List.find?_eq_none.mpr (fun x hx hpx => (List.countP_eq_zero.mp h x hx) hpx)

lemma find?_append_singleton {α : Type} {p : α → Bool} {l : List α} {a : α}
    (h : l.countP p = 0) (ha : p a = true) : (l ++ [a]).find? p = some a := by
  induction l with
  | nil => simp [List.find?, ha]
  | cons b t ih =>
      have hb : p b = false := by
        have := List.countP_eq_zero.mp h b (List.mem_cons_self b t)
        simpa using this
      have ht : t.countP p = 0 := by
        have := List.countP_eq_zero.mp h
        exact List.countP_eq_zero.mpr (fun x hx => this x (List.mem_cons_of_mem _ hx))
      simpa [List.find?, hb] using ih ht

lemma map_ite_id {α : Type} (getId : α → Nat) {n : Nat} {x : α} {l : List α}
    (h : ∀ a ∈ l, getId a ≠ n) :
    (l.map fun w => if getId w == n then x else w) = l := by
  induction l with
  | nil => rfl
  | cons b t ih =>
      have hb : (getId b == n) = false := by
        simpa using h b (List.mem_cons_self b t)
      have ht : ∀ a ∈ t, getId a ≠ n := fun a ha => h a (List.mem_cons_of_mem _ ha)
      rw [List.map_cons, ih ht, hb]
      simp

lemma ensure_votes (db : DB) (projectId actorId : Nat) :
    (ensurePublicMember db projectId actorId).1.votes = db.votes := by
  unfold ensurePublicMember
  split
  · rfl
  · split <;> rfl

lemma ensure_projectMembers (db : DB) (projectId actorId : Nat) :
    (ensurePublicMember db projectId actorId).1.projectMembers = db.projectMembers := by
  unfold ensurePublicMember
  split
  · rfl
  · split <;> rfl

lemma ensure_comments (db : DB) (projectId actorId : Nat) :
    (ensurePublicMember db projectId actorId).1.comments = db.comments := by
  unfold ensurePublicMember
  split
  · rfl
  · split <;> rfl

lemma ensure_ppm_of_not_member {db : DB} {projectId actorId : Nat}
    (hm : isActiveMember db projectId actorId = false)
    (h0 : ppmCount db projectId actorId = 0) :
    ppmCount (ensurePublicMember db projectId actorId).1 projectId actorId = 1 := by
  have hfind :
      db.publicMembers.find?
        (fun m => m.projectId == projectId && m.memberId == actorId) = none :=
    find?_eq_none_of_countP_zero h0
  unfold ensurePublicMember
  rw [hm]
  simp only [Bool.false_eq_true, if_false, hfind]
  unfold ppmCount at h0 ⊢
  simp [List.countP_append, h0, List.countP_cons]

lemma ensure_ppm_preserved {db : DB} {projectId actorId : Nat}
    (h1 : 0 < ppmCount db projectId actorId) :
    (ensurePublicMember db projectId actorId).1.publicMembers = db.publicMembers := by
  unfold ensurePublicMember
  split
  · rfl
  · have hex : ∃ m ∈ db.publicMembers,
        (m.projectId == projectId && m.memberId == actorId) = true :=
      List.countP_pos_iff.mp h1
    split
    · rfl
    · next hnone =>
        obtain ⟨m, hm, hpm⟩ := hex
        exact absurd hpm (List.find?_eq_none.mp hnone m hm)

lemma ensure_ppm_count_preserved {db : DB} {projectId actorId : Nat}
    (h1 : 0 < ppmCount db projectId actorId) :
    ppmCount (ensurePublicMember db projectId actorId).1 projectId actorId =
      ppmCount db projectId actorId := by
  unfold ppmCount
  rw [ensure_ppm_preserved h1]

lemma ensure_deployBoards (db : DB) (projectId actorId : Nat) :
    (ensurePublicMember db projectId actorId).1.deployBoards = db.deployBoards := by
  unfold ensurePublicMember
  split
  · rfl
  · split <;> rfl

lemma vote_create_none_votes (db : DB) (slug : String) (pid iid uid : Nat)
    (p : VotePayload) (now : Nat)
    (hf : db.votes.find? (voteKey pid iid uid) = none)
    (hfr : ∀ w ∈ db.votes, IssueVote.id w ≠ db.nextId) :
    (IssueVotePublicViewSet.create db slug pid iid uid p now).db.votes
      = db.votes ++ [⟨db.nextId, slug, pid, iid, uid, p.vote.getD 1⟩] := by
  simp only [IssueVotePublicViewSet.create, hf, ensure_votes]
  rw [List.map_append, map_ite_id IssueVote.id hfr]
  simp

lemma vote_create_some_votes (db : DB) (slug : String) (pid iid uid : Nat)
    (p : VotePayload) (now : Nat) (v : IssueVote)
    (hf : db.votes.find? (voteKey pid iid uid) = some v) :
    (IssueVotePublicViewSet.create db slug pid iid uid p now).db.votes
      = db.votes.map
          (fun w => if w.id == v.id then { v with vote := p.vote.getD 1 } else w) := by
  simp only [IssueVotePublicViewSet.create, hf, ensure_votes]

lemma comment_create_success (db : DB) (slug : String) (pid iid uid : Nat)
    (p : CommentPayload) (now : Nat) (board : DeployBoard)
    (hb : findBoard db slug pid = some board) (hc : board.comments = true)
    (hp : p.valid = true) :
    (IssueCommentPublicViewSet.create db slug pid iid uid p now).resp.code = 201
    ∧ (IssueCommentPublicViewSet.create db slug pid iid uid p now).db
        = (ensurePublicMember
            { db with
              comments := db.comments ++
                [⟨db.nextId, slug, pid, iid, uid, "EXTERNAL", p.commentHtml.getD "", now⟩]
              nextId := db.nextId + 1 } pid uid).1 := by
  constructor <;> simp [IssueCommentPublicViewSet.create, hb, hc, hp, Resp.code]

/-- A database with no deploy board for the (w, 1) pair, holding one issue. -/
def dbNB : DB := ⟨[], [⟨9, "w", 1, true⟩], [], [], [], [], [], [], 100⟩

/-- A database whose board exists but has every capability flag disabled,
with rows present in every sub-resource table. -/
def dbOff : DB :=
  ⟨[⟨"w", 1, false, false, false⟩], [⟨9, "w", 1, true⟩],
    [⟨10, "w", 1, 9, 7, "EXTERNAL", "hi", 0⟩],
    [⟨11, "w", 1, 9, 7, "+1", 0⟩],
    [⟨12, "w", 1, 10, 7, "+1", 0⟩],
    [⟨13, "w", 1, 9, 7, 1⟩], [], [], 100⟩

/-- A database with a fully enabled board, one issue, one comment by actor 7,
two reactions with the same code by actors 7 and 8, and one vote by actor
7. -/
def dbPub : DB :=
  ⟨[⟨"w", 1, true, true, true⟩], [⟨9, "w", 1, true⟩],
    [⟨10, "w", 1, 9, 7, "EXTERNAL", "hi", 0⟩],
    [⟨11, "w", 1, 9, 7, "+1", 0⟩, ⟨12, "w", 1, 9, 8, "+1", 0⟩],
    [], [⟨13, "w", 1, 9, 7, 1⟩], [], [], 100⟩

/-- A database with an enabled board and one comment with body old, used to
exhibit the update-snapshot behaviour. -/
def dbC2 : DB :=
  ⟨[⟨"w", 1, true, true, true⟩], [],
    [⟨10, "w", 1, 2, 7, "EXTERNAL", "old", 0⟩], [], [], [], [], [], 100⟩

/-- The unannotated base queryset produced by the generic base view method
on line 565 (generic CRUD plumbing outside the shown file): no filters, no
aggregate fields. -/
def plainBaseQuery : IssueQuery := ⟨none, none, none, [], [], none⟩


/-- C5: for every list request on comments, issue reactions, comment
reactions or votes where the deploy board is missing or the relevant
capability flag is false, the endpoint returns an empty ordered sequence and
never an error; both cases hold. -/
theorem disabled_or_missing_lists_empty (db : DB) (slug : String)
    (pid iid cid uid : Nat) :
    (findBoard db slug pid = none →
       IssueCommentPublicViewSet.get_queryset db slug pid iid uid = []
       ∧ IssueReactionPublicViewSet.get_queryset db slug pid iid = []
       ∧ CommentReactionPublicViewSet.get_queryset db slug pid cid = []
       ∧ IssueVotePublicViewSet.get_queryset db slug pid iid = [])
    ∧ ∀ board, findBoard db slug pid = some board →
        (board.comments = false →
          IssueCommentPublicViewSet.get_queryset db slug pid iid uid = [])
        ∧ (board.reactions = false →
            IssueReactionPublicViewSet.get_queryset db slug pid iid = []
            ∧ CommentReactionPublicViewSet.get_queryset db slug pid cid = [])
        ∧ (board.votes = false →
            IssueVotePublicViewSet.get_queryset db slug pid iid = []) := by
  constructor
  · intro h
    refine ⟨?_, ?_, ?_, ?_⟩ <;>
      simp [IssueCommentPublicViewSet.get_queryset,
        IssueReactionPublicViewSet.get_queryset,
        CommentReactionPublicViewSet.get_queryset,
        IssueVotePublicViewSet.get_queryset, h]
  · intro board hb
    refine ⟨fun hc => ?_, fun hr => ⟨?_, ?_⟩, fun hv => ?_⟩
    · simp [IssueCommentPublicViewSet.get_queryset, hb, hc]
    · simp [IssueReactionPublicViewSet.get_queryset, hb, hr]
    · simp [CommentReactionPublicViewSet.get_queryset, hb, hr]
    · simp [IssueVotePublicViewSet.get_queryset, hb, hv]

/-- C5 witness: at a database with no board and a database whose board has
all flags disabled despite rows being present, every list is empty. -/
theorem disabled_or_missing_lists_empty_witness :
    IssueCommentPublicViewSet.get_queryset dbNB "w" 1 9 7 = []
    ∧ IssueVotePublicViewSet.get_queryset dbNB "w" 1 9 = []
    ∧ IssueCommentPublicViewSet.get_queryset dbOff "w" 1 9 7 = []
    ∧ IssueReactionPublicViewSet.get_queryset dbOff "w" 1 9 = []
    ∧ CommentReactionPublicViewSet.get_queryset dbOff "w" 1 10 = []
    ∧ IssueVotePublicViewSet.get_queryset dbOff "w" 1 9 = [] := by
  have h1 := (disabled_or_missing_lists_empty dbNB "w" 1 9 10 7).1 rfl
  have h2 := (disabled_or_missing_lists_empty dbOff "w" 1 9 10 7).2
    ⟨"w", 1, false, false, false⟩ rfl
  exact ⟨h1.1, h1.2.2.2, h2.1 rfl, (h2.2.1 rfl).1, (h2.2.1 rfl).2, h2.2.2 rfl⟩

/-- C3 counterexample: at a database with an issue but no DeployBoard for
the pair, the single-issue retrieve endpoint returns the issue data with
status 200, and the vote create endpoint performs its mutation and returns
201 rather than an error, so the project is not unreachable. -/
theorem boardless_reachability_cex :
    findBoard dbNB "w" 1 = none
    ∧ (IssueRetrievePublicEndpoint.get dbNB "w" 1 9).resp
        = .okBody (serializeIssue ⟨9, "w", 1, true⟩)
    ∧ (IssueVotePublicViewSet.create dbNB "w" 1 9 7 ⟨some 1⟩ 0).resp.code = 201
    ∧ (IssueVotePublicViewSet.create dbNB "w" 1 9 7 ⟨some 1⟩ 0).db.votes ≠ [] := by
  decide

/-- C3 (amended): for every (workspace, project) pair with no DeployBoard,
every sub-resource list returns empty and the project issue listing returns
404, but the single-issue retrieve endpoint and the vote mutation endpoints
do not consult the board: retrieve returns issue data whenever the issue
exists and vote create succeeds with 201. -/
theorem boardless_project_visibility (db : DB) (slug : String)
    (pid iid cid uid : Nat) (vp : VotePayload) (baseQ : IssueQuery)
    (fs : List (String × String)) (ord : String) (now : Nat)
    (h : findBoard db slug pid = none) :
    IssueCommentPublicViewSet.get_queryset db slug pid iid uid = []
    ∧ IssueReactionPublicViewSet.get_queryset db slug pid iid = []
    ∧ CommentReactionPublicViewSet.get_queryset db slug pid cid = []
    ∧ IssueVotePublicViewSet.get_queryset db slug pid iid = []
    ∧ (ProjectIssuesPublicEndpoint.get db slug pid baseQ fs ord).status = 404
    ∧ (∀ i, db.issues.find?
          (fun w => w.workspaceSlug == slug && w.projectId == pid && w.id == iid)
          = some i →
        (IssueRetrievePublicEndpoint.get db slug pid iid).resp
          = .okBody (serializeIssue i))
    ∧ (IssueVotePublicViewSet.create db slug pid iid uid vp now).resp.code = 201 := by
  have hany : db.deployBoards.any
      (fun b => b.workspaceSlug == slug && b.projectId == pid) = false := by
    rw [List.any_eq_false]
    exact List.find?_eq_none.mp h
  refine ⟨?_, ?_, ?_, ?_, ?_, ?_, ?_⟩
  · simp [IssueCommentPublicViewSet.get_queryset, h]
  · simp [IssueReactionPublicViewSet.get_queryset, h]
  · simp [CommentReactionPublicViewSet.get_queryset, h]
  · simp [IssueVotePublicViewSet.get_queryset, h]
  · simp [ProjectIssuesPublicEndpoint.get, hany]
  · intro i hi
    simp [IssueRetrievePublicEndpoint.get, hi]
  · cases hf : db.votes.find? (voteKey pid iid uid) <;>
      simp [IssueVotePublicViewSet.create, hf, Resp.code]

/-- C3 amended witness: at the boardless database, the lists are empty, the
listing returns 404, retrieve returns the issue, and vote create returns
201. -/
theorem boardless_project_visibility_witness :
    IssueCommentPublicViewSet.get_queryset dbNB "w" 1 9 7 = []
    ∧ (ProjectIssuesPublicEndpoint.get dbNB "w" 1 plainBaseQuery [] "-created_at").status
        = 404
    ∧ (IssueRetrievePublicEndpoint.get dbNB "w" 1 9).resp
        = .okBody (serializeIssue ⟨9, "w", 1, true⟩)
    ∧ (IssueVotePublicViewSet.create dbNB "w" 1 9 7 ⟨some 1⟩ 0).resp.code = 201 := by
  have h := boardless_project_visibility dbNB "w" 1 9 10 7 ⟨some 1⟩ plainBaseQuery []
    "-created_at" 0 rfl
  exact ⟨h.1, h.2.2.2.2.1, h.2.2.2.2.2.1 ⟨9, "w", 1, true⟩ rfl, h.2.2.2.2.2.2⟩

/-- C1 counterexample: at a database with no DeployBoard at all, a vote
create request succeeds with 201 and performs the mutation, and a following
vote delete succeeds with 204, so neither mutating vote endpoint resolves
the board gate or returns a capability-disabled error. -/
theorem vote_create_ignores_board_cex :
    findBoard dbNB "w" 1 = none
    ∧ (IssueVotePublicViewSet.create dbNB "w" 1 9 7 ⟨some (-1)⟩ 0).resp.code = 201
    ∧ (IssueVotePublicViewSet.create dbNB "w" 1 9 7 ⟨some (-1)⟩ 0).db.votes ≠ []
    ∧ (IssueVotePublicViewSet.destroy
        (IssueVotePublicViewSet.create dbNB "w" 1 9 7 ⟨some (-1)⟩ 0).db
        "w" 1 9 7 1).resp.code = 204 := by
  decide

/-- C1 (amended): the vote create and vote delete handlers never consult the
deploy board: their responses are unchanged under any replacement of the
deploy-board table, vote create always succeeds with 201 and leaves a vote
row for the (actor, project, issue) key, and vote delete behaves identically
regardless of board state. -/
theorem vote_endpoints_board_independent (db : DB) (bs : List DeployBoard)
    (slug : String) (pid iid uid : Nat) (p : VotePayload) (now : Nat) :
    (IssueVotePublicViewSet.create db slug pid iid uid p now).resp.code = 201
    ∧ 0 < ((IssueVotePublicViewSet.create db slug pid iid uid p now).db.votes.countP
        (voteKey pid iid uid))
    ∧ (IssueVotePublicViewSet.create { db with deployBoards := bs }
          slug pid iid uid p now).resp
        = (IssueVotePublicViewSet.create db slug pid iid uid p now).resp
    ∧ (IssueVotePublicViewSet.destroy { db with deployBoards := bs }
          slug pid iid uid now).resp
        = (IssueVotePublicViewSet.destroy db slug pid iid uid now).resp
    ∧ (IssueVotePublicViewSet.destroy { db with deployBoards := bs }
          slug pid iid uid now).effects
        = (IssueVotePublicViewSet.destroy db slug pid iid uid now).effects := by
  refine ⟨?_, ?_, ?_, ?_, ?_⟩
  · cases hf : db.votes.find? (voteKey pid iid uid) <;>
      simp [IssueVotePublicViewSet.create, hf, Resp.code]
  · cases hf : db.votes.find? (voteKey pid iid uid) with
    | none =>
        simp only [IssueVotePublicViewSet.create, hf, ensure_votes]
        refine List.countP_pos_iff.mpr
          ⟨⟨db.nextId, slug, pid, iid, uid, p.vote.getD 1⟩,
            List.mem_map.mpr ⟨⟨db.nextId, slug, pid, iid, uid, 1⟩, by simp, by simp⟩,
            by simp [voteKey]⟩
    | some v =>
        have hkey : voteKey pid iid uid v = true := List.find?_some hf
        have hmem : v ∈ db.votes := List.mem_of_find?_eq_some hf
        simp only [IssueVotePublicViewSet.create, hf, ensure_votes]
        refine List.countP_pos_iff.mpr
          ⟨{ v with vote := p.vote.getD 1 },
            List.mem_map.mpr ⟨v, hmem, by simp⟩, ?_⟩
        simpa [voteKey] using hkey
  · cases hf : db.votes.find? (voteKey pid iid uid) <;>
      simp [IssueVotePublicViewSet.create, hf]
  · cases hf : db.votes.find?
        (fun v => v.workspaceSlug == slug && v.projectId == pid &&
          v.issueId == iid && v.actorId == uid) <;>
      simp [IssueVotePublicViewSet.destroy, hf]
  · cases hf : db.votes.find?
        (fun v => v.workspaceSlug == slug && v.projectId == pid &&
          v.issueId == iid && v.actorId == uid) <;>
      simp [IssueVotePublicViewSet.destroy, hf]

/-- C4: the listing endpoint builds the annotated queryset with the base
predicate project, slug and is_draft true and the three counter aggregates
(lines 532-561), but line 565 rebinds the queryset variable to the plain
base queryset with only the parsed filters, so the queryset actually handed
to pagination carries neither the base predicate nor any counter
aggregate field, while the discarded built queryset carries both. -/
theorem listing_queryset_discarded_bug :
    (ProjectIssuesPublicEndpoint.get dbPub "w" 1 plainBaseQuery
        [("priority", "high")] "-created_at").status = 200
    ∧ (ProjectIssuesPublicEndpoint.get dbPub "w" 1 plainBaseQuery
        [("priority", "high")] "-created_at").query
        = some ⟨none, none, none, [("priority", "high")], [], some "-created_at"⟩
    ∧ (builtIssueQueryset 1 "w").filterIsDraft = some true
    ∧ (builtIssueQueryset 1 "w").filterProjectId = some 1
    ∧ "link_count" ∈ (builtIssueQueryset 1 "w").aggFields
    ∧ "attachment_count" ∈ (builtIssueQueryset 1 "w").aggFields
    ∧ "sub_issues_count" ∈ (builtIssueQueryset 1 "w").aggFields := by
  decide

/-- C2 counterexample: updating the comment with body old to body new emits
exactly one activity event, and its current_instance is the serialization of
the post-update comment (body new), not the pre-update snapshot (body old),
because the handler re-serializes the instance the save just mutated. -/
theorem comment_update_snapshot_cex :
    (emittedEvents (IssueCommentPublicViewSet.patch dbC2 "w" 1 2 7 10
        ⟨some "new", true⟩ 5).effects).map (fun ev => ev.currentInstance)
      = [some (serializeComment ⟨10, "w", 1, 2, 7, "EXTERNAL", "new", 0⟩)]
    ∧ serializeComment ⟨10, "w", 1, 2, 7, "EXTERNAL", "new", 0⟩
        ≠ serializeComment ⟨10, "w", 1, 2, 7, "EXTERNAL", "old", 0⟩ := by
  decide

/-- C2 (amended): for every successful comment update, the emitted activity
event has type comment.activity.updated and requested_data equal to the raw
incoming payload, but current_instance equals the serialized state of the
comment after the merge of supplied fields was applied: the snapshot is taken
the mutating write, from the same mutated instance. -/
theorem comment_update_activity_event (db : DB) (slug : String)
    (pid iid uid pk : Nat) (p : CommentPayload) (now : Nat)
    (board : DeployBoard) (c : IssueComment)
    (hb : findBoard db slug pid = some board) (hc : board.comments = true)
    (hf : db.comments.find?
        (fun w => w.workspaceSlug == slug && w.id == pk && w.actorId == uid)
        = some c)
    (hp : p.valid = true) :
    (IssueCommentPublicViewSet.patch db slug pid iid uid pk p now).resp
      = .okBody (serializeComment { c with commentHtml := p.commentHtml.getD c.commentHtml })
    ∧ (IssueCommentPublicViewSet.patch db slug pid iid uid pk p now).effects
      = [.updateRow "IssueComment" c.id,
         .emit ⟨"comment.activity.updated", some (commentReqJson p), toString uid,
           some (toString iid), toString pid,
           some (serializeComment { c with commentHtml := p.commentHtml.getD c.commentHtml }),
           now⟩] := by
  constructor <;> simp [IssueCommentPublicViewSet.patch, hb, hc, hf, hp]

/-- C2 amended witness: at the concrete database, the update response is 200
with the merged comment and the event carries the post-update serialization
as current_instance and the raw payload as requested_data. -/
theorem comment_update_activity_event_witness :
    (IssueCommentPublicViewSet.patch dbC2 "w" 1 2 7 10 ⟨some "new", true⟩ 5).resp
      = .okBody (serializeComment ⟨10, "w", 1, 2, 7, "EXTERNAL", "new", 0⟩)
    ∧ (IssueCommentPublicViewSet.patch dbC2 "w" 1 2 7 10 ⟨some "new", true⟩ 5).effects
      = [.updateRow "IssueComment" 10,
         .emit ⟨"comment.activity.updated", some (commentReqJson ⟨some "new", true⟩),
           "7", some "2", "1",
           some (serializeComment ⟨10, "w", 1, 2, 7, "EXTERNAL", "new", 0⟩), 5⟩] := by
  exact comment_update_activity_event dbC2 "w" 1 2 7 10 ⟨some "new", true⟩ 5
    ⟨"w", 1, true, true, true⟩ ⟨10, "w", 1, 2, 7, "EXTERNAL", "old", 0⟩
    rfl rfl rfl rfl

/-- C8: update and delete lookups filter on actor = requesting identity, so
a request targeting a row the caller does not own yields 404 NotFound (the
response taxonomy has no Forbidden case in these handlers); and deleting a
reaction by its natural key removes only the row whose actor is the caller,
leaving rows by other actors with the same reaction code in place. -/
theorem ownership_scoped_lookups (db : DB) (slug : String)
    (pid iid uid pk : Nat) (code : String) (p : CommentPayload) (now : Nat)
    (board : DeployBoard)
    (hb : findBoard db slug pid = some board) (hcm : board.comments = true)
    (hrx : board.reactions = true) :
    (db.comments.find?
        (fun w => w.workspaceSlug == slug && w.id == pk && w.actorId == uid) = none →
      (IssueCommentPublicViewSet.patch db slug pid iid uid pk p now).resp.code = 404
      ∧ (IssueCommentPublicViewSet.patch db slug pid iid uid pk p now).db = db)
    ∧ (db.comments.find?
        (fun w => w.workspaceSlug == slug && w.id == pk && w.projectId == pid &&
          w.actorId == uid) = none →
      (IssueCommentPublicViewSet.destroy db slug pid iid uid pk now).resp.code = 404)
    ∧ (db.issueReactions.find?
        (fun w => w.workspaceSlug == slug && w.issueId == iid &&
          w.reaction == code && w.actorId == uid) = none →
      (IssueReactionPublicViewSet.destroy db slug pid iid uid code now).resp.code = 404)
    ∧ (db.votes.find?
        (fun w => w.workspaceSlug == slug && w.projectId == pid &&
          w.issueId == iid && w.actorId == uid) = none →
      (IssueVotePublicViewSet.destroy db slug pid iid uid now).resp.code = 404)
    ∧ (∀ r, db.issueReactions.find?
        (fun w => w.workspaceSlug == slug && w.issueId == iid &&
          w.reaction == code && w.actorId == uid) = some r →
      idUnique IssueReaction.id db.issueReactions →
      r ∉ (IssueReactionPublicViewSet.destroy db slug pid iid uid code now).db.issueReactions
      ∧ ∀ w ∈ db.issueReactions, w.actorId ≠ uid →
          w ∈ (IssueReactionPublicViewSet.destroy db slug pid iid uid code now).db.issueReactions) := by
  refine ⟨fun h => ?_, fun h => ?_, fun h => ?_, fun h => ?_, fun r hr hu => ?_⟩
  · constructor <;>
      simp [IssueCommentPublicViewSet.patch, hb, hcm, h, doesNotExist, Resp.code]
  · simp [IssueCommentPublicViewSet.destroy, hb, hcm, h, doesNotExist, Resp.code]
  · simp [IssueReactionPublicViewSet.destroy, hb, hrx, h, doesNotExist, Resp.code]
  · simp [IssueVotePublicViewSet.destroy, h, doesNotExist, Resp.code]
  · have hrk := List.find?_some hr
    have hract : r.actorId = uid := by
      simp only [Bool.and_eq_true, beq_iff_eq] at hrk
      exact hrk.2
    have hrm := List.mem_of_find?_eq_some hr
    constructor
    · intro hmem
      simp only [IssueReactionPublicViewSet.destroy, hb, hrx, hr] at hmem
      simp only [Bool.not_eq_true'] at hmem
      have := (List.mem_filter.mp hmem).2
      simp at this
    · intro w hw hwact
      simp only [IssueReactionPublicViewSet.destroy, hb, hrx, hr]
      refine List.mem_filter.mpr ⟨hw, ?_⟩
      have hid : w.id ≠ r.id := by
        intro he
        exact hwact (by rw [hu w hw r hrm he, hract])
      simp [hid]

/-- C8 witness: at the concrete database, an update by a non-author yields
404 with no database change, and deleting the reaction with code +1 as
actor 7 removes the row of actor 7 but leaves the row of actor 8 with the
same code. -/
theorem ownership_scoped_lookups_witness :
    ((IssueCommentPublicViewSet.patch dbPub "w" 1 9 8 10 ⟨some "x", true⟩ 0).resp.code = 404
      ∧ (IssueCommentPublicViewSet.patch dbPub "w" 1 9 8 10 ⟨some "x", true⟩ 0).db = dbPub)
    ∧ (⟨11, "w", 1, 9, 7, "+1", 0⟩ : IssueReaction)
        ∉ (IssueReactionPublicViewSet.destroy dbPub "w" 1 9 7 "+1" 0).db.issueReactions
    ∧ (⟨12, "w", 1, 9, 8, "+1", 0⟩ : IssueReaction)
        ∈ (IssueReactionPublicViewSet.destroy dbPub "w" 1 9 7 "+1" 0).db.issueReactions := by
  have h := ownership_scoped_lookups dbPub "w" 1 9 7 10 "+1" ⟨some "x", true⟩ 0
    ⟨"w", 1, true, true, true⟩ rfl rfl rfl
  have h8 := ownership_scoped_lookups dbPub "w" 1 9 8 10 "+1" ⟨some "x", true⟩ 0
    ⟨"w", 1, true, true, true⟩ rfl rfl rfl
  have hnat := h.2.2.2.2 ⟨11, "w", 1, 9, 7, "+1", 0⟩ rfl (by unfold idUnique; decide)
  exact ⟨h8.1 rfl, hnat.1,
    hnat.2 ⟨12, "w", 1, 9, 8, "+1", 0⟩ (by decide) (by decide)⟩

/-- C9: for every successful delete of a comment, an issue reaction or a
vote, the activity event of type resource.activity.deleted is emitted before
the row is removed (the emit effect precedes the delete effect in the
trace), its current_instance serializes the row being deleted and contains
the row id, and once the row is found the deletion is unconditional with a
204 no-body response. -/
theorem destroy_emits_before_delete (db : DB) (slug : String)
    (pid iid uid pk : Nat) (code : String) (now : Nat) (board : DeployBoard)
    (c : IssueComment) (r : IssueReaction) (v : IssueVote)
    (hb : findBoard db slug pid = some board) (hcm : board.comments = true)
    (hrx : board.reactions = true)
    (hfc : db.comments.find?
        (fun w => w.workspaceSlug == slug && w.id == pk && w.projectId == pid &&
          w.actorId == uid) = some c)
    (hfr : db.issueReactions.find?
        (fun w => w.workspaceSlug == slug && w.issueId == iid &&
          w.reaction == code && w.actorId == uid) = some r)
    (hfv : db.votes.find?
        (fun w => w.workspaceSlug == slug && w.projectId == pid &&
          w.issueId == iid && w.actorId == uid) = some v) :
    ((IssueCommentPublicViewSet.destroy db slug pid iid uid pk now).resp = .noContent
      ∧ (IssueCommentPublicViewSet.destroy db slug pid iid uid pk now).effects
        = [.emit ⟨"comment.activity.deleted", some [("comment_id", toString pk)],
            toString uid, some (toString iid), toString pid,
            some (serializeComment c), now⟩,
           .deleteRow "IssueComment" c.id]
      ∧ ("id", toString c.id) ∈ serializeComment c
      ∧ c ∉ (IssueCommentPublicViewSet.destroy db slug pid iid uid pk now).db.comments)
    ∧ ((IssueReactionPublicViewSet.destroy db slug pid iid uid code now).resp = .noContent
      ∧ (IssueReactionPublicViewSet.destroy db slug pid iid uid code now).effects
        = [.emit ⟨"issue_reaction.activity.deleted", none, toString uid,
            some (toString iid), toString pid,
            some [("reaction", code), ("identifier", toString r.id)], now⟩,
           .deleteRow "IssueReaction" r.id]
      ∧ ("identifier", toString r.id)
          ∈ [("reaction", code), ("identifier", toString r.id)]
      ∧ r ∉ (IssueReactionPublicViewSet.destroy db slug pid iid uid code now).db.issueReactions)
    ∧ ((IssueVotePublicViewSet.destroy db slug pid iid uid now).resp = .noContent
      ∧ (IssueVotePublicViewSet.destroy db slug pid iid uid now).effects
        = [.emit ⟨"issue_vote.activity.deleted", none, toString uid,
            some (toString iid), toString pid,
            some [("vote", toString v.vote), ("identifier", toString v.id)], now⟩,
           .deleteRow "IssueVote" v.id]
      ∧ ("identifier", toString v.id)
          ∈ [("vote", toString v.vote), ("identifier", toString v.id)]
      ∧ v ∉ (IssueVotePublicViewSet.destroy db slug pid iid uid now).db.votes) := by
  refine ⟨⟨?_, ?_, ?_, ?_⟩, ⟨?_, ?_, ?_, ?_⟩, ⟨?_, ?_, ?_, ?_⟩⟩
  · simp [IssueCommentPublicViewSet.destroy, hb, hcm, hfc]
  · simp [IssueCommentPublicViewSet.destroy, hb, hcm, hfc]
  · simp [serializeComment]
  · intro hmem
    simp only [IssueCommentPublicViewSet.destroy, hb, hcm, hfc] at hmem
    have := (List.mem_filter.mp hmem).2
    simp at this
  · simp [IssueReactionPublicViewSet.destroy, hb, hrx, hfr]
  · simp [IssueReactionPublicViewSet.destroy, hb, hrx, hfr]
  · simp
  · intro hmem
    simp only [IssueReactionPublicViewSet.destroy, hb, hrx, hfr] at hmem
    have := (List.mem_filter.mp hmem).2
    simp at this
  · simp [IssueVotePublicViewSet.destroy, hfv]
  · simp [IssueVotePublicViewSet.destroy, hfv]
  · simp
  · intro hmem
    simp only [IssueVotePublicViewSet.destroy, hfv] at hmem
    have := (List.mem_filter.mp hmem).2
    simp at this

/-- C9 witness: at the concrete database, all three destroys return 204, the
emit effect precedes the delete effect, and the snapshots carry the row
ids. -/
theorem destroy_emits_before_delete_witness :
    (IssueCommentPublicViewSet.destroy dbPub "w" 1 9 7 10 0).resp = .noContent
    ∧ (IssueCommentPublicViewSet.destroy dbPub "w" 1 9 7 10 0).effects
      = [.emit ⟨"comment.activity.deleted", some [("comment_id", "10")], "7",
          some "9", "1",
          some (serializeComment ⟨10, "w", 1, 9, 7, "EXTERNAL", "hi", 0⟩), 0⟩,
         .deleteRow "IssueComment" 10]
    ∧ ("identifier", "13")
        ∈ [("vote", toString (1 : Int)), ("identifier", "13")]
    ∧ (⟨13, "w", 1, 9, 7, 1⟩ : IssueVote)
        ∉ (IssueVotePublicViewSet.destroy dbPub "w" 1 9 7 0).db.votes := by
  have h := destroy_emits_before_delete dbPub "w" 1 9 7 10 "+1" 0
    ⟨"w", 1, true, true, true⟩ ⟨10, "w", 1, 9, 7, "EXTERNAL", "hi", 0⟩
    ⟨11, "w", 1, 9, 7, "+1", 0⟩ ⟨13, "w", 1, 9, 7, 1⟩ rfl rfl rfl rfl rfl rfl
  exact ⟨h.1.1, h.1.2.1, h.2.2.2.2.1, h.2.2.2.2.2⟩

/-- C10: a vote create request whose payload has no vote field succeeds with
201 and stores the value 1: an existing row for the (issue, actor) key has
its value overwritten with 1, and otherwise the newly created row carries
the value 1. -/
theorem vote_default_value_one (db : DB) (slug : String) (pid iid uid : Nat)
    (p : VotePayload) (now : Nat) (hp : p.vote = none) :
    (IssueVotePublicViewSet.create db slug pid iid uid p now).resp.code = 201
    ∧ (∀ v, db.votes.find? (voteKey pid iid uid) = some v →
        { v with vote := 1 }
          ∈ (IssueVotePublicViewSet.create db slug pid iid uid p now).db.votes)
    ∧ (db.votes.find? (voteKey pid iid uid) = none →
        ∃ w ∈ (IssueVotePublicViewSet.create db slug pid iid uid p now).db.votes,
          voteKey pid iid uid w = true ∧ w.vote = 1) := by
  refine ⟨?_, ?_, ?_⟩
  · cases hf : db.votes.find? (voteKey pid iid uid) <;>
      simp [IssueVotePublicViewSet.create, hf, Resp.code]
  · intro v hf
    rw [vote_create_some_votes db slug pid iid uid p now v hf]
    refine List.mem_map.mpr ⟨v, List.mem_of_find?_eq_some hf, ?_⟩
    simp [hp]
  · intro hf
    simp only [IssueVotePublicViewSet.create, hf, ensure_votes]
    refine ⟨⟨db.nextId, slug, pid, iid, uid, p.vote.getD 1⟩,
      List.mem_map.mpr ⟨⟨db.nextId, slug, pid, iid, uid, 1⟩, by simp, by simp⟩,
      by simp [voteKey], by simp [hp]⟩

/-- C10 witness: with a payload carrying no vote field, the existing vote of
actor 7 with value 1 is overwritten with 1 and the request returns 201; on
the fresh database the created row carries value 1. -/
theorem vote_default_value_one_witness :
    (IssueVotePublicViewSet.create dbPub "w" 1 9 7 ⟨none⟩ 0).resp.code = 201
    ∧ ({ (⟨13, "w", 1, 9, 7, 1⟩ : IssueVote) with vote := 1 }
        ∈ (IssueVotePublicViewSet.create dbPub "w" 1 9 7 ⟨none⟩ 0).db.votes)
    ∧ ∃ w ∈ (IssueVotePublicViewSet.create dbNB "w" 1 9 7 ⟨none⟩ 0).db.votes,
        voteKey 1 9 7 w = true ∧ w.vote = 1 := by
  have h1 := vote_default_value_one dbPub "w" 1 9 7 ⟨none⟩ 0 rfl
  have h2 := vote_default_value_one dbNB "w" 1 9 7 ⟨none⟩ 0 rfl
  exact ⟨h1.1, h1.2.1 ⟨13, "w", 1, 9, 7, 1⟩ rfl, h2.2.2 rfl⟩

lemma vote_create_code (db : DB) (slug : String) (pid iid uid : Nat)
    (p : VotePayload) (now : Nat) :
    (IssueVotePublicViewSet.create db slug pid iid uid p now).resp.code = 201 := by
  cases hf : db.votes.find? (voteKey pid iid uid) <;>
    simp [IssueVotePublicViewSet.create, hf, Resp.code]

/-- C6: vote creation is an upsert keyed by (issue, actor): two successive
vote create requests from the same actor on the same issue leave exactly one
IssueVote row for that key, its vote value equals the value of the second
request, and both requests return 201. -/
theorem vote_create_upsert (db : DB) (slug : String) (pid iid uid : Nat)
    (p1 p2 : VotePayload) (val2 : Int) (now1 now2 : Nat)
    (hfresh : ∀ v ∈ db.votes, IssueVote.id v < db.nextId)
    (h0 : db.votes.countP (voteKey pid iid uid) = 0)
    (hval : p2.vote = some val2) :
    (IssueVotePublicViewSet.create db slug pid iid uid p1 now1).resp.code = 201
    ∧ (IssueVotePublicViewSet.create
        (IssueVotePublicViewSet.create db slug pid iid uid p1 now1).db
        slug pid iid uid p2 now2).resp.code = 201
    ∧ (IssueVotePublicViewSet.create
        (IssueVotePublicViewSet.create db slug pid iid uid p1 now1).db
        slug pid iid uid p2 now2).db.votes.countP (voteKey pid iid uid) = 1
    ∧ ∀ w ∈ (IssueVotePublicViewSet.create
        (IssueVotePublicViewSet.create db slug pid iid uid p1 now1).db
        slug pid iid uid p2 now2).db.votes,
        voteKey pid iid uid w = true → w.vote = val2 := by
  have hfr : ∀ w ∈ db.votes, IssueVote.id w ≠ db.nextId :=
    fun w hw => Nat.ne_of_lt (hfresh w hw)
  have hf1 : db.votes.find? (voteKey pid iid uid) = none :=
    find?_eq_none_of_countP_zero h0
  have hvotes1 : (IssueVotePublicViewSet.create db slug pid iid uid p1 now1).db.votes
      = db.votes ++ [⟨db.nextId, slug, pid, iid, uid, p1.vote.getD 1⟩] :=
    vote_create_none_votes db slug pid iid uid p1 now1 hf1 hfr
  have hkey1 : voteKey pid iid uid ⟨db.nextId, slug, pid, iid, uid, p1.vote.getD 1⟩
      = true := by simp [voteKey]
  have hf2 : (IssueVotePublicViewSet.create db slug pid iid uid p1 now1).db.votes.find?
      (voteKey pid iid uid) = some ⟨db.nextId, slug, pid, iid, uid, p1.vote.getD 1⟩ := by
    rw [hvotes1]
    exact find?_append_singleton h0 hkey1
  have hvotes2 : (IssueVotePublicViewSet.create
      (IssueVotePublicViewSet.create db slug pid iid uid p1 now1).db
      slug pid iid uid p2 now2).db.votes
      = db.votes ++ [⟨db.nextId, slug, pid, iid, uid, val2⟩] := by
    rw [vote_create_some_votes _ slug pid iid uid p2 now2 _ hf2, hvotes1,
      List.map_append, map_ite_id IssueVote.id hfr]
    simp [hval]
  refine ⟨vote_create_code db slug pid iid uid p1 now1,
    vote_create_code _ slug pid iid uid p2 now2, ?_, ?_⟩
  · rw [hvotes2, List.countP_append, h0]
    simp [voteKey]
  · intro w hw hk
    rw [hvotes2] at hw
    rcases List.mem_append.mp hw with h | h
    · exact absurd hk (by simpa using List.countP_eq_zero.mp h0 w h)
    · rw [List.mem_singleton.mp h]

/-- C6 witness: on a database with no vote rows, two successive creates by
actor 7 on issue 9 leave exactly one row for the key and its value is the
second value. -/
theorem vote_create_upsert_witness :
    (IssueVotePublicViewSet.create
        (IssueVotePublicViewSet.create dbNB "w" 1 9 7 ⟨some 1⟩ 0).db
        "w" 1 9 7 ⟨some (-1)⟩ 0).db.votes.countP (voteKey 1 9 7) = 1
    ∧ ∀ w ∈ (IssueVotePublicViewSet.create
        (IssueVotePublicViewSet.create dbNB "w" 1 9 7 ⟨some 1⟩ 0).db
        "w" 1 9 7 ⟨some (-1)⟩ 0).db.votes,
        voteKey 1 9 7 w = true → w.vote = -1 := by
  have h := vote_create_upsert dbNB "w" 1 9 7 ⟨some 1⟩ ⟨some (-1)⟩ (-1) 0 0
    (by decide) rfl rfl
  exact ⟨h.2.2.1, h.2.2.2⟩

/-- C7: an identity that is not an active formal ProjectMember gets exactly
one ProjectPublicMember row for the project on its first successful create
action (here a comment create), and a subsequent create action by the same
identity (here a vote create) creates zero additional rows and raises no
error. -/
theorem public_member_registered_once (db : DB) (slug : String)
    (pid iid uid : Nat) (p : CommentPayload) (vp : VotePayload)
    (board : DeployBoard) (now1 now2 : Nat)
    (hb : findBoard db slug pid = some board) (hc : board.comments = true)
    (hp : p.valid = true)
    (hm : isActiveMember db pid uid = false)
    (h0 : ppmCount db pid uid = 0) :
    (IssueCommentPublicViewSet.create db slug pid iid uid p now1).resp.code = 201
    ∧ ppmCount (IssueCommentPublicViewSet.create db slug pid iid uid p now1).db
        pid uid = 1
    ∧ (IssueVotePublicViewSet.create
        (IssueCommentPublicViewSet.create db slug pid iid uid p now1).db
        slug pid iid uid vp now2).resp.code = 201
    ∧ ppmCount (IssueVotePublicViewSet.create
        (IssueCommentPublicViewSet.create db slug pid iid uid p now1).db
        slug pid iid uid vp now2).db pid uid = 1 := by
  obtain ⟨hcode, hdb⟩ := comment_create_success db slug pid iid uid p now1 board hb hc hp
  have h1 : ppmCount (IssueCommentPublicViewSet.create db slug pid iid uid p now1).db
      pid uid = 1 := by
    rw [hdb]
    exact ensure_ppm_of_not_member hm h0
  have hv1 : 0 < ppmCount (IssueCommentPublicViewSet.create db slug pid iid uid p now1).db
      pid uid := by
    rw [h1]
    exact Nat.one_pos
  refine ⟨hcode, h1, vote_create_code _ slug pid iid uid vp now2, ?_⟩
  cases hf : (IssueCommentPublicViewSet.create db slug pid iid uid p now1).db.votes.find?
      (voteKey pid iid uid) with
  | some v =>
      simp only [IssueVotePublicViewSet.create, hf]
      show ppmCount (ensurePublicMember
        (IssueCommentPublicViewSet.create db slug pid iid uid p now1).db pid uid).1
        pid uid = 1
      rw [ensure_ppm_count_preserved hv1]
      exact h1
  | none =>
      simp only [IssueVotePublicViewSet.create, hf]
      have hv1b : 0 < ppmCount
          { (IssueCommentPublicViewSet.create db slug pid iid uid p now1).db with
            votes := (IssueCommentPublicViewSet.create db slug pid iid uid p now1).db.votes
              ++ [⟨(IssueCommentPublicViewSet.create db slug pid iid uid p now1).db.nextId,
                slug, pid, iid, uid, 1⟩]
            nextId := (IssueCommentPublicViewSet.create db slug pid iid uid p now1).db.nextId
              + 1 } pid uid := hv1
      show ppmCount (ensurePublicMember
        { (IssueCommentPublicViewSet.create db slug pid iid uid p now1).db with
          votes := (IssueCommentPublicViewSet.create db slug pid iid uid p now1).db.votes
            ++ [⟨(IssueCommentPublicViewSet.create db slug pid iid uid p now1).db.nextId,
              slug, pid, iid, uid, 1⟩]
          nextId := (IssueCommentPublicViewSet.create db slug pid iid uid p now1).db.nextId
            + 1 } pid uid).1 pid uid = 1
      rw [ensure_ppm_count_preserved hv1b]
      exact h1

/-- C7 witness: on a database with a comments-enabled board and no members,
actor 7 gets one ProjectPublicMember row after a comment create and still
exactly one after a following vote create, both returning success. -/
theorem public_member_registered_once_witness :
    (IssueCommentPublicViewSet.create dbC2 "w" 1 2 7 ⟨some "hello", true⟩ 0).resp.code = 201
    ∧ ppmCount (IssueCommentPublicViewSet.create dbC2 "w" 1 2 7
        ⟨some "hello", true⟩ 0).db 1 7 = 1
    ∧ ppmCount (IssueVotePublicViewSet.create
        (IssueCommentPublicViewSet.create dbC2 "w" 1 2 7 ⟨some "hello", true⟩ 0).db
        "w" 1 2 7 ⟨some 1⟩ 1).db 1 7 = 1 := by
  have h := public_member_registered_once dbC2 "w" 1 2 7 ⟨some "hello", true⟩ ⟨some 1⟩
    ⟨"w", 1, true, true, true⟩ 0 1 rfl rfl rfl rfl rfl
  exact ⟨h.1, h.2.1, h.2.2.2⟩
